import Mathlib

/-!
Verification of the instance-discovery and diagnostic logic of
`tracerouter.py` (a gcloud VM traceroute helper).

The Python source is shallowly embedded: API responses become records,
`re.compile` / `regex.match` become a small regex parser plus a
derivative-based matcher with prefix ("match at position 0") semantics,
and each function threads an explicit trace of the API calls and
subprocess/output effects it performs.  Python exceptions (`KeyError`,
`IndexError`, `re.error`, `OSError`) become an `Except` error type.
-/

namespace Tracerouter

/-- Python exceptions that the script can raise. -/
inductive PyError where
  | keyError (key : String)
  | indexError
  | patternError
  deriving DecidableEq, Repr

/-! ## Regular expressions: `re.compile` and `regex.match`

`regex.match(name)` in Python succeeds iff the pattern matches starting at
position 0 of `name`, without having to consume the whole string.  We model
the regex core (literal characters, `.`, grouping, alternation `|`, and
Kleene star `*`) with Brzozowski derivatives, and `re.compile` as a parser
that rejects malformed patterns (e.g. an unbalanced `(`) with
`PyError.patternError`. -/

/-- Regular-expression abstract syntax. -/
inductive Regex where
  | emptyset
  | epsilon
  | char (c : Char)
  | any
  | alt (r s : Regex)
  | concat (r s : Regex)
  | star (r : Regex)
  deriving DecidableEq, Repr

/-- Does the regex accept the empty string? -/
def nullable : Regex → Bool
  | .emptyset => false
  | .epsilon => true
  | .char _ => false
  | .any => false
  | .alt r s => nullable r || nullable s
  | .concat r s => nullable r && nullable s
  | .star _ => true

/-- Brzozowski derivative of a regex with respect to one character. -/
def deriv : Regex → Char → Regex
  | .emptyset, _ => .emptyset
  | .epsilon, _ => .emptyset
  | .char c, a => if a = c then .epsilon else .emptyset
  | .any, _ => .epsilon
  | .alt r s, a => .alt (deriv r a) (deriv s a)
  | .concat r s, a =>
      if nullable r then .alt (.concat (deriv r a) s) (deriv s a)
      else .concat (deriv r a) s
  | .star r, a => .concat (deriv r a) (.star r)

/-- Whole-string match: the regex consumes exactly the given characters. -/
def fullMatch (r : Regex) (s : List Char) : Bool :=
  nullable (s.foldl deriv r)

/-- Python `regex.match` semantics on a character list: the pattern must
match starting at position 0, but need not consume the whole input. -/
def reMatchList (r : Regex) : List Char → Bool
  | [] => nullable r
  | c :: rest => nullable r || reMatchList (deriv r c) rest

/-- Python `regex.match(s)` as a Boolean: prefix match at position 0. -/
def reMatch (r : Regex) (s : String) : Bool :=
  reMatchList r s.data

/-! ### The pattern parser (`re.compile`)

A fuel-indexed recursive descent parser for the grammar

    alt  ::= cat ('|' alt)?
    cat  ::= ε | rep cat          (stops at ')' , '|' or end)
    rep  ::= atom '*'?
    atom ::= '(' alt ')' | '.' | ordinary character

Malformed patterns — an unbalanced `(`, a stray `)`, or a repeat `*` with
nothing to repeat — fail with `PyError.patternError`, modelling the
`re.error` raised by `re.compile`. -/

mutual

def parseAlt : Nat → List Char → Except PyError (Regex × List Char)
  | 0, _ => .error .patternError
  | fuel + 1, s => do
    let (r, rest) ← parseCat fuel s
    match rest with
    | '|' :: rest2 => do
        let (r2, rest3) ← parseAlt fuel rest2
        pure (.alt r r2, rest3)
    | _ => pure (r, rest)

def parseCat : Nat → List Char → Except PyError (Regex × List Char)
  | 0, _ => .error .patternError
  | fuel + 1, s =>
    match s with
    | [] => pure (.epsilon, [])
    | ')' :: _ => pure (.epsilon, s)
    | '|' :: _ => pure (.epsilon, s)
    | _ => do
        let (r, rest) ← parseRep fuel s
        let (r2, rest2) ← parseCat fuel rest
        pure (.concat r r2, rest2)

def parseRep : Nat → List Char → Except PyError (Regex × List Char)
  | 0, _ => .error .patternError
  | fuel + 1, s => do
    let (r, rest) ← parseAtom fuel s
    match rest with
    | '*' :: rest2 => pure (.star r, rest2)
    | _ => pure (r, rest)

def parseAtom : Nat → List Char → Except PyError (Regex × List Char)
  | 0, _ => .error .patternError
  | fuel + 1, s =>
    match s with
    | [] => .error .patternError
    | '(' :: rest => do
        let (r, rest2) ← parseAlt fuel rest
        match rest2 with
        | ')' :: rest3 => pure (r, rest3)
        | _ => .error .patternError
    | '.' :: rest => pure (.any, rest)
    | '*' :: _ => .error .patternError
    | ')' :: _ => .error .patternError
    | c :: rest => pure (.char c, rest)

end

/-- `re.compile(pattern)`: parse the whole pattern, failing with
`PyError.patternError` on a malformed regex. -/
def re_compile (pattern : String) : Except PyError Regex := do
  let s := pattern.data
  let (r, rest) ← parseAlt (4 * s.length + 4) s
  match rest with
  | [] => pure r
  | _ => .error .patternError

/-- The compiled regex of a pattern, defaulting to `emptyset` when the
pattern is malformed (convenience for stating concrete examples). -/
def compileD (pattern : String) : Regex :=
  match re_compile pattern with
  | .ok r => r
  | .error _ => .emptyset

/-! ## Data model: API response records

Python treats API responses as loosely-typed dicts; the fields the script
reads become record fields.  The `"natIP"` key of an access config and the
`"items"` key of a list response may be absent in a real response, so they
are `Option`s; reading an absent key is the Python `KeyError`. -/

/-- One entry of an instance's `"accessConfigs"` list.  The `"natIP"` key
is optional: an access config need not carry a public address. -/
structure AccessConfig where
  natIP : Option String
  deriving DecidableEq, Repr

/-- One entry of an instance's `"networkInterfaces"` list. -/
structure NetworkInterface where
  accessConfigs : List AccessConfig
  deriving DecidableEq, Repr

/-- An instance record as consumed by the script. -/
structure InstanceRec where
  name : String
  status : String
  kind : String
  networkInterfaces : List NetworkInterface
  deriving DecidableEq, Repr

/-- A zone record as consumed by the script. -/
structure ZoneRec where
  name : String
  status : String
  kind : String
  deriving DecidableEq, Repr

/-- A `zones().list(...).execute()` response; the `"items"` key may be
absent. -/
structure ZonesListResponse where
  items : Option (List ZoneRec)
  deriving DecidableEq, Repr

/-- An `instances().list(...).execute()` response; the `"items"` key may
be absent. -/
structure InstancesListResponse where
  items : Option (List InstanceRec)
  deriving DecidableEq, Repr

/-- The compute API: what the provider answers to `zones().list` and, per
zone name, to `instances().list`. -/
structure ComputeApi where
  zonesResponse : ZonesListResponse
  instancesResponse : String → InstancesListResponse

/-- One network invocation of the compute API. -/
inductive ApiCall where
  | zonesList (project : String)
  | instancesList (project zone : String)
  deriving DecidableEq, Repr

/-- The instance items the provider returns for a zone, read the way
`list_instances` reads them (absent `"items"` treated as `[]`). -/
def instancesOf (compute_api : ComputeApi) (zone : String) : List InstanceRec :=
  ((compute_api.instancesResponse zone).items).getD []

/-! ## Compute inventory client -/

/-- `list_instances(compute_api, project, zone)`: one `instances().list`
call; `if "items" in result: return result["items"] else: return []`. -/
def list_instances (compute_api : ComputeApi) (project zone : String) :
    List InstanceRec × List ApiCall :=
  let result := compute_api.instancesResponse zone
  (match result.items with
   | some items => items
   | none => [],
   [ApiCall.instancesList project zone])

/-- The filter-and-project step of `get_zone_names`: keep zones with
`status == "UP"` and `kind == "compute#zone"`, then take their names. -/
def up_zone_names (items : List ZoneRec) : List String :=
  (items.filter fun i => i.status == "UP" && i.kind == "compute#zone").map
    fun i => i.name

/-- `get_zone_names(compute_api, project)`: one `zones().list` call, then
`result["items"]` (a `KeyError` if the key is absent), filtered to zones
with `status == "UP"` and `kind == "compute#zone"`, projected to names. -/
def get_zone_names (compute_api : ComputeApi) (project : String) :
    Except PyError (List String) × List ApiCall :=
  let result := compute_api.zonesResponse
  (match result.items with
   | none => .error (.keyError "items")
   | some items => .ok (up_zone_names items),
   [ApiCall.zonesList project])

/-! ## Instance discovery (`obtain_instances`) -/

/-- The filter comprehension of `obtain_instances`: keep instances with
`x["status"] == "RUNNING" and x["kind"] == "compute#instance" and
regex.match(x["name"])`. -/
def filter_instances (regex : Regex) (instances : List InstanceRec) :
    List InstanceRec :=
  instances.filter fun x =>
    x.status == "RUNNING" && x.kind == "compute#instance" && reMatch regex x.name

/-- The `for zone_name in zone_names` loop of `obtain_instances`: one
`list_instances` call per zone name, the zone keyed with its filtered
instance list (inserted even when that list is empty). -/
def zone_loop (compute_api : ComputeApi) (project : String) (regex : Regex) :
    List String → List (String × List InstanceRec) × List ApiCall
  | [] => ([], [])
  | zone_name :: rest =>
      let (instances, calls) := list_instances compute_api project zone_name
      let (tl, calls') := zone_loop compute_api project regex rest
      ((zone_name, filter_instances regex instances) :: tl, calls ++ calls')

/-- `obtain_instances(compute_api, project, match_pattern)`: list the UP
zone names (this issues the `zones().list` call), **then** compile the
pattern, then query and filter each zone's instances.  The result is the
zone-name-keyed grouping together with the trace of API calls issued. -/
def obtain_instances (compute_api : ComputeApi) (project match_pattern : String) :
    Except PyError (List (String × List InstanceRec)) × List ApiCall :=
  match get_zone_names compute_api project with
  | (.error e, calls) => (.error e, calls)
  | (.ok zone_names, calls) =>
      match re_compile match_pattern with
      | .error e => (.error e, calls)
      | .ok regex =>
          let (zone_instances, calls') := zone_loop compute_api project regex zone_names
          (.ok zone_instances, calls ++ calls')

/-! ## Diagnostic runner

Subprocess behaviour is part of the environment: `results` gives, for an
argument vector, the exit code, the standard-output lines and the captured
standard-error text of that invocation, and `selfIpRaw` is what the
self-IP `dig` query writes.  Runner functions return the ordered list of
effects they perform: process spawns and printed output lines. -/

/-- Outcome of one external command. -/
structure SubprocResult where
  returncode : Int
  stdoutLines : List String
  stderr : String

/-- The runner's environment: subprocess outcomes by argument vector, and
the raw output of the self-IP DNS query. -/
structure RunnerEnv where
  results : List String → SubprocResult
  selfIpRaw : String

/-- An observable effect of the runner. -/
inductive Effect where
  | spawn (procName : String) (args : List String)
  | out (line : String)
  deriving DecidableEq, Repr

/-- Python `str.strip()`: drop whitespace from both ends. -/
def pyStrip (s : String) : String := s.trim

/-- `obtain_self_ip()`: a `dig` query to openDNS for the host's public IP,
stripped.  Returns the IP together with the spawn effect of the query. -/
def obtain_self_ip (env : RunnerEnv) : String × List Effect :=
  (pyStrip env.selfIpRaw,
   [Effect.spawn "dig" ["dig", "myip.opendns.com", "@resolver1.opendns.com", "+short"]])

/-- `print_subprocess(proc_name, proc_args)`: spawn the command, stream
its stdout lines, then — inside a `try` block — raise `OSError("[FROM VM]:
" + stderr.strip())` when the exit status is non-zero.  The `except`
clause catches that error and prints `"Error running {proc_name}:
{error}\nCALL: {args}\n"`, so the call always returns normally (the
failure is non-fatal to the batch). -/
def print_subprocess (env : RunnerEnv) (proc_name : String)
    (proc_args : List String) : List Effect :=
  let proc_args_str := String.intercalate " " proc_args
  let res := env.results proc_args
  let streamed := Effect.spawn proc_name proc_args :: res.stdoutLines.map Effect.out
  if res.returncode ≠ 0 then
    streamed ++
      [Effect.out ("Error running " ++ proc_name ++ ": [FROM VM]: "
        ++ pyStrip res.stderr ++ "\nCALL: " ++ proc_args_str ++ "\n")]
  else
    streamed ++ [Effect.out ""]

/-- The address lookup
`instance["networkInterfaces"][0]["accessConfigs"][0]["natIP"]`: an
`IndexError` when either list is empty, a `KeyError` when the first access
config of the first interface has no `"natIP"` key. -/
def resolve_external_ip (inst : InstanceRec) : Except PyError String :=
  match inst.networkInterfaces with
  | [] => .error .indexError
  | ni :: _ =>
      match ni.accessConfigs with
      | [] => .error .indexError
      | ac :: _ =>
          match ac.natIP with
          | none => .error (.keyError "natIP")
          | some ip => .ok ip

/-- `traceroute_instance(instance, project, zone, reverse_traceroute)`:
resolve the target address (this can raise), query the operator's own
public IP via `obtain_self_ip` (unconditionally), print the forward
header, run `traceroute <external_ip>`, and — only when
`reverse_traceroute` is set — print the reverse header and run traceroute
remotely on the instance through `gcloud compute ssh`. -/
def traceroute_instance (env : RunnerEnv) (inst : InstanceRec)
    (tr_project_name tr_zone_name : String) (reverse_traceroute : Bool) :
    Except PyError (List Effect) := do
  let name := inst.name
  let external_ip ← resolve_external_ip inst
  let (self_ip, digEffects) := obtain_self_ip env
  let header :=
    Effect.out ("Traceroute TO " ++ name ++ ": " ++ self_ip ++ " -> " ++ external_ip)
  let forward := print_subprocess env "Traceroute" ["traceroute", external_ip]
  let reverse :=
    if reverse_traceroute then
      Effect.out ("Traceroute FROM " ++ name ++ ": " ++ external_ip ++ " -> " ++ self_ip)
        :: print_subprocess env "Reverse Traceroute"
            ["gcloud", "compute", "ssh", name, "--project", tr_project_name,
             "--zone", tr_zone_name, "--command", "traceroute " ++ self_ip]
    else []
  pure (digEffects ++ [header] ++ forward ++ reverse)

/-- `print_instance(instance)`: print `"{name}: {external_ip}"`.  The
address lookup is the same unguarded subscript chain as in
`traceroute_instance` and can raise. -/
def print_instance (inst : InstanceRec) : Except PyError (List Effect) := do
  let name := inst.name
  let external_ip ← resolve_external_ip inst
  pure [Effect.out (name ++ ": " ++ external_ip)]

/-- The inner `for inst in zone_instances[zone_name]` loop of `main`:
print the instance in `--print` mode, otherwise traceroute it.  An
uncaught exception aborts the whole loop (no handler in `main`). -/
def run_instances (env : RunnerEnv) (printFlag reverseFlag : Bool)
    (project zone_name : String) :
    List InstanceRec → Except PyError (List Effect)
  | [] => .ok []
  | inst :: rest => do
      let effects ←
        if printFlag then print_instance inst
        else traceroute_instance env inst project zone_name reverseFlag
      let effectsRest ← run_instances env printFlag reverseFlag project zone_name rest
      pure (effects ++ effectsRest)

/-- The per-zone loop of `main`: zones with an empty instance list are
skipped silently; otherwise a zone banner is printed and every instance of
the zone is processed. -/
def process_zones (env : RunnerEnv) (printFlag reverseFlag : Bool)
    (project : String) :
    List (String × List InstanceRec) → Except PyError (List Effect)
  | [] => .ok []
  | (zone_name, instances) :: rest =>
      if instances.length = 0 then
        process_zones env printFlag reverseFlag project rest
      else do
        let effects ← run_instances env printFlag reverseFlag project zone_name instances
        let effectsRest ← process_zones env printFlag reverseFlag project rest
        pure (Effect.out "" :: Effect.out ("Instances in " ++ zone_name)
          :: Effect.out "----------------------------------------"
          :: effects ++ effectsRest)

/-! ## Observations on effect traces -/

/-- Is the effect a process spawn (any external command)? -/
def isSpawn : Effect → Bool
  | .spawn _ _ => true
  | .out _ => false

/-- Is the effect the external DNS query for the operator's own public IP
(the openDNS `myip` lookup)? -/
def isSelfIpDig : Effect → Bool
  | .spawn _ args => args.contains "myip.opendns.com"
  | .out _ => false

/-- Is the effect a remote-execution (secure shell) command, i.e. an
invocation of `gcloud compute ssh ...`? -/
def isRemoteExec : Effect → Bool
  | .spawn _ ("gcloud" :: "compute" :: "ssh" :: _) => true
  | _ => false

/-- `small` occurs inside `big` as a contiguous substring. -/
def containsStr (big small : String) : Prop :=
  ∃ before after : List Char, before ++ small.data ++ after = big.data

/-! ## Concrete test fixtures

Small concrete providers, environments and records used to instantiate
the general theorems below at executable inputs. -/

/-- A running, matching instance with a public address. -/
def sampleInstance : InstanceRec :=
  { name := "web-01", status := "RUNNING", kind := "compute#instance",
    networkInterfaces := [{ accessConfigs := [{ natIP := some "203.0.113.5" }] }] }

/-- A terminated instance (filtered out by discovery). -/
def sampleStopped : InstanceRec :=
  { name := "web-02", status := "TERMINATED", kind := "compute#instance",
    networkInterfaces := [{ accessConfigs := [{ natIP := some "203.0.113.6" }] }] }

/-- A running instance whose only interface has no access configs at all. -/
def sampleNoIpInstance : InstanceRec :=
  { name := "vm-1", status := "RUNNING", kind := "compute#instance",
    networkInterfaces := [{ accessConfigs := [] }] }

/-- One UP and one DOWN zone, as a zones response would carry them. -/
def sampleZones : List ZoneRec :=
  [{ name := "us-central1-a", status := "UP", kind := "compute#zone" },
   { name := "europe-west1-b", status := "DOWN", kind := "compute#zone" }]

/-- A provider with one UP zone (holding `sampleInstance` and
`sampleStopped`) and one DOWN zone; unknown zones answer with no
`"items"` key. -/
def sampleApi : ComputeApi :=
  { zonesResponse := { items := some sampleZones },
    instancesResponse := fun zone =>
      if zone = "us-central1-a" then { items := some [sampleInstance, sampleStopped] }
      else { items := none } }

/-- A provider whose `zones().list` response lacks the `"items"` key. -/
def sampleApiNoItems : ComputeApi :=
  { zonesResponse := { items := none },
    instancesResponse := fun _ => { items := none } }

/-- An environment where `traceroute` exits with status 2 writing
`"unreachable"` to stderr, and every other command succeeds. -/
def sampleEnv : RunnerEnv :=
  { results := fun args =>
      if args.head? = some "traceroute" then
        { returncode := 2, stdoutLines := ["hop 1 gateway\n"], stderr := "unreachable" }
      else { returncode := 0, stdoutLines := [], stderr := "" },
    selfIpRaw := "198.51.100.7\n" }

/-! ## General lemmas about the embedding -/

/-- `reMatchList` is exactly "the pattern fully matches some leading part
of the input": it matches from position 0 without being required to
consume the whole input. -/
theorem reMatchList_eq_true_iff (r : Regex) (s : List Char) :
    reMatchList r s = true ↔ ∃ p q, s = p ++ q ∧ fullMatch r p = true := by
  induction s generalizing r with
  | nil =>
      simp only [reMatchList]
      constructor
      · intro h
        exact ⟨[], [], rfl, h⟩
      · rintro ⟨p, q, hpq, hm⟩
        have hp : p = [] := by
          cases p with
          | nil => rfl
          | cons a t => simp at hpq
        subst hp
        exact hm
  | cons c rest ih =>
      simp only [reMatchList, Bool.or_eq_true]
      constructor
      · rintro (h | h)
        · exact ⟨[], c :: rest, rfl, h⟩
        · obtain ⟨p, q, hpq, hm⟩ := (ih (deriv r c)).mp h
          refine ⟨c :: p, q, by simp [hpq], ?_⟩
          simpa [fullMatch] using hm
      · rintro ⟨p, q, hpq, hm⟩
        cases p with
        | nil =>
            left
            simpa [fullMatch] using hm
        | cons a t =>
            right
            have hc : a = c := by
              have := congrArg (List.head?) hpq
              simpa using this.symm
            have ht : rest = t ++ q := by
              have := congrArg (List.tail) hpq
              simpa using this
            subst hc
            exact (ih (deriv r a)).mpr ⟨t, q, ht, by simpa [fullMatch] using hm⟩

/-- Closed form of the `obtain_instances` zone loop: one entry and one
`instances().list` call per zone name, in order. -/
theorem zone_loop_eq (compute_api : ComputeApi) (project : String)
    (regex : Regex) (zone_names : List String) :
    zone_loop compute_api project regex zone_names =
      (zone_names.map fun zn =>
        (zn, filter_instances regex (instancesOf compute_api zn)),
       zone_names.map (ApiCall.instancesList project)) := by
  induction zone_names with
  | nil => rfl
  | cons zn rest ih =>
      simp only [zone_loop, list_instances, List.map_cons, ih]
      cases hi : (compute_api.instancesResponse zn).items <;>
        simp [instancesOf, hi]

/-- Closed form of `obtain_instances` when the zones response has items
and the pattern compiles: the grouping keyed by the UP zone names, and
the exact API-call trace. -/
theorem obtain_instances_eq (compute_api : ComputeApi)
    (project pattern : String) (regex : Regex) (zs : List ZoneRec)
    (hz : compute_api.zonesResponse.items = some zs)
    (hre : re_compile pattern = .ok regex) :
    obtain_instances compute_api project pattern =
      (.ok ((up_zone_names zs).map fun zn =>
          (zn, filter_instances regex (instancesOf compute_api zn))),
       ApiCall.zonesList project ::
         (up_zone_names zs).map (ApiCall.instancesList project)) := by
  simp [obtain_instances, get_zone_names, hz, hre, zone_loop_eq]

/-- Reduction of `Except` bind on a success value. -/
theorem except_bind_ok {α β ε : Type} (a : α) (f : α → Except ε β) :
    ((Except.ok a : Except ε α) >>= f) = f a := rfl

/-- Reduction of `Except` bind on an error value: the error propagates. -/
theorem except_bind_error {α β ε : Type} (e : ε) (f : α → Except ε β) :
    ((Except.error e : Except ε α) >>= f) = Except.error e := rfl

/-- The spawn of the invoked command is always in a `print_subprocess`
trace. -/
theorem spawn_mem_print_subprocess (env : RunnerEnv) (proc_name : String)
    (proc_args : List String) :
    Effect.spawn proc_name proc_args ∈ print_subprocess env proc_name proc_args := by
  simp only [print_subprocess]
  split <;> simp

/-- Every element of a `print_subprocess` trace is either the spawn of
the invoked command or a printed output line. -/
theorem mem_print_subprocess_cases (env : RunnerEnv) (proc_name : String)
    (proc_args : List String) (e : Effect)
    (h : e ∈ print_subprocess env proc_name proc_args) :
    e = Effect.spawn proc_name proc_args ∨ ∃ line, e = Effect.out line := by
  simp only [print_subprocess] at h
  split at h <;> simp at h <;>
    rcases h with rfl | (⟨line, _, rfl⟩ | rfl)
  · exact Or.inl rfl
  · exact Or.inr ⟨line, rfl⟩
  · exact Or.inr ⟨_, rfl⟩
  · exact Or.inl rfl
  · exact Or.inr ⟨line, rfl⟩
  · exact Or.inr ⟨_, rfl⟩

/-- Normal return of `traceroute_instance` once the address resolves: the
explicit effect trace — self-IP `dig` query first, forward-traceroute
header and subprocess, then the reverse part only when requested. -/
theorem traceroute_instance_eq (env : RunnerEnv) (inst : InstanceRec)
    (project zone : String) (rev : Bool) (ip : String)
    (hres : resolve_external_ip inst = .ok ip) :
    traceroute_instance env inst project zone rev =
      .ok ([Effect.spawn "dig" ["dig", "myip.opendns.com", "@resolver1.opendns.com", "+short"]]
        ++ [Effect.out ("Traceroute TO " ++ inst.name ++ ": "
              ++ pyStrip env.selfIpRaw ++ " -> " ++ ip)]
        ++ print_subprocess env "Traceroute" ["traceroute", ip]
        ++ (if rev then
              Effect.out ("Traceroute FROM " ++ inst.name ++ ": " ++ ip
                  ++ " -> " ++ pyStrip env.selfIpRaw)
                :: print_subprocess env "Reverse Traceroute"
                    ["gcloud", "compute", "ssh", inst.name, "--project", project,
                     "--zone", zone, "--command", "traceroute " ++ pyStrip env.selfIpRaw]
            else [])) := by
  simp [traceroute_instance, obtain_self_ip, hres]

/-- In `--print` mode the instance loop succeeds and spawns no process,
provided every instance's address resolves. -/
theorem run_instances_print (env : RunnerEnv) (rev : Bool)
    (project zone : String) (l : List InstanceRec)
    (h : ∀ x ∈ l, ∃ ip, resolve_external_ip x = .ok ip) :
    ∃ tr, run_instances env true rev project zone l = .ok tr
      ∧ ∀ e ∈ tr, isSpawn e = false := by
  induction l with
  | nil => exact ⟨[], rfl, by simp⟩
  | cons inst rest ih =>
      obtain ⟨ip, hip⟩ := h inst (List.mem_cons_self _ _)
      obtain ⟨tr, htr, hsp⟩ := ih fun x hx => h x (List.mem_cons_of_mem _ hx)
      refine ⟨[Effect.out (inst.name ++ ": " ++ ip)] ++ tr, ?_, ?_⟩
      · simp [run_instances, print_instance, hip, htr, except_bind_ok]
      · intro e he
        rcases List.mem_append.mp he with he | he
        · rcases List.mem_singleton.mp he with rfl
          rfl
        · exact hsp e he

/-- In `--print` mode the zone loop succeeds and spawns no process,
provided every grouped instance's address resolves. -/
theorem process_zones_print (env : RunnerEnv) (rev : Bool) (project : String)
    (zi : List (String × List InstanceRec))
    (h : ∀ z l, (z, l) ∈ zi → ∀ x ∈ l, ∃ ip, resolve_external_ip x = .ok ip) :
    ∃ tr, process_zones env true rev project zi = .ok tr
      ∧ ∀ e ∈ tr, isSpawn e = false := by
  induction zi with
  | nil => exact ⟨[], rfl, by simp⟩
  | cons p rest ih =>
      obtain ⟨z, l⟩ := p
      obtain ⟨tr, htr, hsp⟩ := ih fun z' l' hm => h z' l' (List.mem_cons_of_mem _ hm)
      by_cases hl : l.length = 0
      · exact ⟨tr, by simp [process_zones, hl, htr], hsp⟩
      · obtain ⟨tri, htri, hspi⟩ :=
          run_instances_print env rev project z l (h z l (List.mem_cons_self _ _))
        refine ⟨Effect.out "" :: Effect.out ("Instances in " ++ z)
          :: Effect.out "----------------------------------------" :: (tri ++ tr), ?_, ?_⟩
        · simp [process_zones, hl, htri, htr, except_bind_ok]
        · intro e he
          simp only [List.mem_cons, List.mem_append] at he
          rcases he with rfl | rfl | rfl | he | he
          · rfl
          · rfl
          · rfl
          · exact hspi e he
          · exact hsp e he

/-! ## Claim theorems -/

/-- C1: for every zone of the discovery result and every instance the
provider returns for that zone, the instance appears in the result for
that zone iff its status is `"RUNNING"`, its kind discriminator is
`"compute#instance"`, and the compiled pattern matches its name starting
at position 0 without having to consume the whole name — so pattern
`"web-"` selects `"web-01"` but not `"my-web-01"`. -/
theorem C1_instance_filter :
    (∀ (compute_api : ComputeApi) (project pattern : String) (regex : Regex)
        (zi : List (String × List InstanceRec)) (z : String)
        (l : List InstanceRec) (x : InstanceRec),
        re_compile pattern = .ok regex →
        (obtain_instances compute_api project pattern).1 = .ok zi →
        (z, l) ∈ zi →
        x ∈ instancesOf compute_api z →
        (x ∈ l ↔ x.status = "RUNNING" ∧ x.kind = "compute#instance"
            ∧ reMatch regex x.name = true))
    ∧ reMatch (compileD "web-") "web-01" = true
    ∧ reMatch (compileD "web-") "my-web-01" = false := by
  refine ⟨?_, rfl, rfl⟩
  intro compute_api project pattern regex zi z l x hre hok hzl hx
  cases hz : compute_api.zonesResponse.items with
  | none =>
      have hbad : (obtain_instances compute_api project pattern).1
          = .error (.keyError "items") := by
        simp [obtain_instances, get_zone_names, hz]
      rw [hbad] at hok
      cases hok
  | some zs =>
      have heq := obtain_instances_eq compute_api project pattern regex zs hz hre
      have hzi : zi = (up_zone_names zs).map fun zn =>
          (zn, filter_instances regex (instancesOf compute_api zn)) := by
        have := congrArg Prod.fst heq
        rw [hok] at this
        simpa using this
      subst hzi
      obtain ⟨zn, hzn, hpair⟩ := List.mem_map.mp hzl
      obtain ⟨rfl, rfl⟩ := Prod.mk.injEq .. ▸ hpair
      simp only [filter_instances, List.mem_filter, hx, true_and,
        Bool.and_eq_true, beq_iff_eq, and_assoc]

/-- C1 witness: in the sample provider, discovery with pattern `"web-"`
keeps exactly the running matching instance of the UP zone. -/
theorem C1_instance_filter_witness :
    sampleInstance ∈ [sampleInstance] :=
  (C1_instance_filter.1 sampleApi "proj" "web-" (compileD "web-")
      [("us-central1-a", [sampleInstance])] "us-central1-a" [sampleInstance]
      sampleInstance rfl rfl (List.mem_singleton.mpr rfl) (by decide)).mpr
    ⟨rfl, rfl, rfl⟩

/-- C2 counterexample: with a provider answering `zones().list` and the
syntactically invalid pattern `"("`, discovery does fail with the pattern
error, but only after one API invocation — the `zones().list` call — so
the number of API calls issued before the failure is 1, not 0 as the
claim states. -/
theorem C2_counterexample :
    (obtain_instances sampleApi "proj" "(").1 = .error PyError.patternError
    ∧ (obtain_instances sampleApi "proj" "(").2 = [ApiCall.zonesList "proj"]
    ∧ ¬((obtain_instances sampleApi "proj" "(").2.length = 0) :=
  ⟨rfl, rfl, by decide⟩

/-- C2 (amended): for every syntactically invalid pattern, discovery
fails with the pattern error after exactly one API invocation — the
`zones().list` call issued by `get_zone_names`, which runs before
`re.compile` — and before any `instances().list` call. -/
theorem C2_pattern_error_after_zones_call (compute_api : ComputeApi)
    (project pattern : String) (zs : List ZoneRec) (e : PyError)
    (hz : compute_api.zonesResponse.items = some zs)
    (hre : re_compile pattern = .error e) :
    obtain_instances compute_api project pattern =
      (.error e, [ApiCall.zonesList project]) := by
  simp [obtain_instances, get_zone_names, hz, hre]

/-- C2 witness: the amended statement instantiated at the sample provider
and the unbalanced pattern `"("`. -/
theorem C2_pattern_error_after_zones_call_witness :
    obtain_instances sampleApi "proj" "(" =
      (.error PyError.patternError, [ApiCall.zonesList "proj"]) :=
  C2_pattern_error_after_zones_call sampleApi "proj" "(" sampleZones
    PyError.patternError rfl rfl

/-- C8: `list_instances` returns `[]` when the `instances().list`
response has no `"items"` collection, and returns exactly the response's
item sequence (in API order) when it does. -/
theorem C8_list_instances_items (compute_api : ComputeApi)
    (project zone : String) :
    ((compute_api.instancesResponse zone).items = none →
        (list_instances compute_api project zone).1 = [])
    ∧ ∀ items, (compute_api.instancesResponse zone).items = some items →
        (list_instances compute_api project zone).1 = items := by
  constructor
  · intro h
    simp [list_instances, h]
  · intro items h
    simp [list_instances, h]

/-- C8 witness: at the sample provider, an unknown zone (whose response
lacks `"items"`) yields `[]` and the UP zone yields its two instances. -/
theorem C8_list_instances_items_witness :
    (list_instances sampleApi "proj" "nowhere").1 = []
    ∧ (list_instances sampleApi "proj" "us-central1-a").1
        = [sampleInstance, sampleStopped] :=
  ⟨(C8_list_instances_items sampleApi "proj" "nowhere").1 rfl,
   (C8_list_instances_items sampleApi "proj" "us-central1-a").2
      [sampleInstance, sampleStopped] rfl⟩

/-- C9: zone listing is not tolerant of a response lacking `"items"` the
way instance listing is — `get_zone_names` fails with the `"items"`
key-lookup error, while `list_instances` returns `[]` in the analogous
case. -/
theorem C9_zone_items_asymmetry (compute_api : ComputeApi)
    (project zone : String)
    (hz : compute_api.zonesResponse.items = none)
    (hi : (compute_api.instancesResponse zone).items = none) :
    (get_zone_names compute_api project).1 = .error (PyError.keyError "items")
    ∧ (list_instances compute_api project zone).1 = [] := by
  constructor
  · simp [get_zone_names, hz]
  · simp [list_instances, hi]

/-- C9 witness: the asymmetry at a provider whose responses lack the
`"items"` key. -/
theorem C9_zone_items_asymmetry_witness :
    (get_zone_names sampleApiNoItems "proj").1
        = .error (PyError.keyError "items")
    ∧ (list_instances sampleApiNoItems "proj" "us-central1-a").1 = [] :=
  C9_zone_items_asymmetry sampleApiNoItems "proj" "us-central1-a" rfl rfl

/-- C3 counterexample: for an instance with no access configuration
carrying a public address, `traceroute_instance` and `print_instance` do
not report a structured no-public-address failure — they abort with an
uncaught `IndexError`, and the per-instance loop aborts with the same
error instead of continuing to the next instance (`sampleInstance` is
never processed). -/
theorem C3_counterexample :
    traceroute_instance sampleEnv sampleNoIpInstance "proj" "zone" false
        = .error PyError.indexError
    ∧ print_instance sampleNoIpInstance = .error PyError.indexError
    ∧ run_instances sampleEnv false false "proj" "zone"
        [sampleNoIpInstance, sampleInstance] = .error PyError.indexError :=
  ⟨rfl, rfl, rfl⟩

/-- C3 (amended): for every instance with no access configuration
carrying a public (natIP) address, the address lookup raises a lookup
error (`IndexError` or `KeyError`); `traceroute_instance` and
`print_instance` fail with that error before invoking any subprocess (no
traceroute runs for the instance), no `NoPublicAddressError` is reported,
and the uncaught error aborts the instance loop instead of letting the
run continue. -/
theorem C3_missing_address_aborts (env : RunnerEnv) (inst : InstanceRec)
    (project zone : String) (rev : Bool) (rest : List InstanceRec)
    (h : ∀ ni ∈ inst.networkInterfaces, ∀ ac ∈ ni.accessConfigs, ac.natIP = none) :
    ∃ e : PyError,
      resolve_external_ip inst = .error e
      ∧ traceroute_instance env inst project zone rev = .error e
      ∧ print_instance inst = .error e
      ∧ run_instances env false rev project zone (inst :: rest) = .error e := by
  have hres : ∃ e, resolve_external_ip inst = .error e := by
    cases hni : inst.networkInterfaces with
    | nil => exact ⟨.indexError, by simp [resolve_external_ip, hni]⟩
    | cons ni nis =>
        cases hac : ni.accessConfigs with
        | nil => exact ⟨.indexError, by simp [resolve_external_ip, hni, hac]⟩
        | cons ac acs =>
            have hnone : ac.natIP = none :=
              h ni (hni ▸ List.mem_cons_self _ _) ac (hac ▸ List.mem_cons_self _ _)
            exact ⟨.keyError "natIP",
              by simp [resolve_external_ip, hni, hac, hnone]⟩
  obtain ⟨e, he⟩ := hres
  refine ⟨e, he, ?_, ?_, ?_⟩
  · simp [traceroute_instance, he, except_bind_error]
  · simp [print_instance, he, except_bind_error]
  · simp [run_instances, traceroute_instance, he, except_bind_error]

/-- C3 witness: the amended statement at the concrete instance whose only
interface has no access configs. -/
theorem C3_missing_address_aborts_witness :
    ∃ e : PyError,
      resolve_external_ip sampleNoIpInstance = .error e
      ∧ traceroute_instance sampleEnv sampleNoIpInstance "proj" "zone" false
          = .error e
      ∧ print_instance sampleNoIpInstance = .error e
      ∧ run_instances sampleEnv false false "proj" "zone"
          [sampleNoIpInstance] = .error e :=
  C3_missing_address_aborts sampleEnv sampleNoIpInstance "proj" "zone" false []
    (by decide)

/-- C4: when the zones response has items and the pattern compiles, the
key list of the discovery result is exactly the names of the UP
`compute#zone` zones (each present even when its filtered instance list
is empty), the API trace is the `zones().list` call followed by one
`instances().list` call per kept zone (so a non-UP zone is never
queried), and zero UP zones yield an empty mapping rather than an
error. -/
theorem C4_zone_keys (compute_api : ComputeApi) (project pattern : String)
    (regex : Regex) (zs : List ZoneRec)
    (hre : re_compile pattern = .ok regex)
    (hz : compute_api.zonesResponse.items = some zs) :
    ∃ zi, (obtain_instances compute_api project pattern).1 = .ok zi
      ∧ zi.map Prod.fst = up_zone_names zs
      ∧ (obtain_instances compute_api project pattern).2 =
          ApiCall.zonesList project ::
            (up_zone_names zs).map (ApiCall.instancesList project)
      ∧ (∀ z, ApiCall.instancesList project z ∈
            (obtain_instances compute_api project pattern).2 →
            z ∈ up_zone_names zs)
      ∧ (up_zone_names zs = [] → zi = []) := by
  have heq := obtain_instances_eq compute_api project pattern regex zs hz hre
  refine ⟨(up_zone_names zs).map fun zn =>
      (zn, filter_instances regex (instancesOf compute_api zn)),
    by rw [heq], by rw [List.map_map]; exact List.map_id _, by rw [heq], ?_, ?_⟩
  · intro z hcall
    rw [heq] at hcall
    simpa using hcall
  · intro hempty
    rw [hempty]
    rfl

/-- C4 witness: at the sample provider only the UP zone is a key and only
it is queried; the DOWN zone is neither. -/
theorem C4_zone_keys_witness :
    ∃ zi, (obtain_instances sampleApi "proj" "web-").1 = .ok zi
      ∧ zi.map Prod.fst = up_zone_names sampleZones
      ∧ (obtain_instances sampleApi "proj" "web-").2 =
          ApiCall.zonesList "proj" ::
            (up_zone_names sampleZones).map (ApiCall.instancesList "proj")
      ∧ (∀ z, ApiCall.instancesList "proj" z ∈
            (obtain_instances sampleApi "proj" "web-").2 →
            z ∈ up_zone_names sampleZones)
      ∧ (up_zone_names sampleZones = [] → zi = []) :=
  C4_zone_keys sampleApi "proj" "web-" (compileD "web-") sampleZones rfl rfl

/-- C5: when an external command exits non-zero, the `print_subprocess`
report contains a line holding both the command's name and the stripped
text captured from its standard-error stream; the failure is non-fatal —
a per-instance run whose address resolves still returns normally, so the
batch continues. -/
theorem C5_subprocess_failure_report (env : RunnerEnv) (proc_name : String)
    (proc_args : List String)
    (h : (env.results proc_args).returncode ≠ 0) :
    (∃ line, Effect.out line ∈ print_subprocess env proc_name proc_args
        ∧ containsStr line proc_name
        ∧ containsStr line (pyStrip (env.results proc_args).stderr))
    ∧ ∀ inst project zone rev ip, resolve_external_ip inst = .ok ip →
        ∃ tr, traceroute_instance env inst project zone rev = .ok tr := by
  constructor
  · refine ⟨"Error running " ++ proc_name ++ ": [FROM VM]: "
        ++ pyStrip (env.results proc_args).stderr ++ "\nCALL: "
        ++ String.intercalate " " proc_args ++ "\n", ?_, ?_, ?_⟩
    · simp [print_subprocess, h]
    · exact ⟨"Error running ".data,
        (": [FROM VM]: " ++ pyStrip (env.results proc_args).stderr
          ++ "\nCALL: " ++ String.intercalate " " proc_args ++ "\n").data,
        by simp [String.data_append]⟩
    · exact ⟨("Error running " ++ proc_name ++ ": [FROM VM]: ").data,
        ("\nCALL: " ++ String.intercalate " " proc_args ++ "\n").data,
        by simp [String.data_append]⟩
  · intro inst project zone rev ip hip
    exact ⟨_, traceroute_instance_eq env inst project zone rev ip hip⟩

/-- C5 witness: a `traceroute` exiting with status 2 writing
`"unreachable"` to stderr produces a report line containing the command
name and the literal captured error text. -/
theorem C5_subprocess_failure_report_witness :
    (∃ line, Effect.out line
          ∈ print_subprocess sampleEnv "Traceroute" ["traceroute", "203.0.113.5"]
        ∧ containsStr line "Traceroute"
        ∧ containsStr line
            (pyStrip (sampleEnv.results ["traceroute", "203.0.113.5"]).stderr))
    ∧ ∀ inst project zone rev ip, resolve_external_ip inst = .ok ip →
        ∃ tr, traceroute_instance sampleEnv inst project zone rev = .ok tr :=
  C5_subprocess_failure_report sampleEnv "Traceroute" ["traceroute", "203.0.113.5"]
    (by decide)

/-- C6 counterexample: processing a matched instance with reverse
traceroute NOT requested still performs the external DNS query for the
operator's own public IP — `obtain_self_ip` runs unconditionally before
the `reverse_traceroute` flag is consulted — refuting the claim that no
self-IP DNS query happens in that case. -/
theorem C6_counterexample :
    ∃ tr, traceroute_instance sampleEnv sampleInstance "proj" "zone" false
        = .ok tr
      ∧ ∃ e ∈ tr, isSelfIpDig e = true := by
  refine ⟨_, traceroute_instance_eq sampleEnv sampleInstance "proj" "zone" false
      "203.0.113.5" rfl, ?_⟩
  exact ⟨Effect.spawn "dig"
      ["dig", "myip.opendns.com", "@resolver1.opendns.com", "+short"],
    by decide, rfl⟩

/-- C6 (amended): for every matched instance whose address resolves, the
self-IP DNS query is performed regardless of the reverse-traceroute flag;
only the remote-execution (secure shell) command is gated on the flag —
absent without it, present with it. -/
theorem C6_reverse_gating (env : RunnerEnv) (inst : InstanceRec)
    (project zone ip : String)
    (hres : resolve_external_ip inst = .ok ip) :
    (∃ tr, traceroute_instance env inst project zone false = .ok tr
        ∧ (∀ e ∈ tr, isRemoteExec e = false)
        ∧ ∃ e ∈ tr, isSelfIpDig e = true)
    ∧ ∃ tr, traceroute_instance env inst project zone true = .ok tr
        ∧ ∃ e ∈ tr, isRemoteExec e = true := by
  constructor
  · refine ⟨_, traceroute_instance_eq env inst project zone false ip hres, ?_, ?_⟩
    · intro e he
      simp only [Bool.false_eq_true, if_false, List.append_nil,
        List.mem_append, List.mem_singleton] at he
      rcases he with (rfl | rfl) | he
      · rfl
      · rfl
      · rcases mem_print_subprocess_cases env _ _ e he with rfl | ⟨line, rfl⟩
        · rfl
        · rfl
    · refine ⟨Effect.spawn "dig"
          ["dig", "myip.opendns.com", "@resolver1.opendns.com", "+short"],
        ?_, rfl⟩
      exact List.mem_append_left _ (List.mem_append_left _
        (List.mem_append_left _ (List.mem_singleton.mpr rfl)))
  · refine ⟨_, traceroute_instance_eq env inst project zone true ip hres, ?_⟩
    refine ⟨Effect.spawn "Reverse Traceroute"
        ["gcloud", "compute", "ssh", inst.name, "--project", project,
         "--zone", zone, "--command", "traceroute " ++ pyStrip env.selfIpRaw],
      ?_, rfl⟩
    rw [if_pos rfl]
    exact List.mem_append_right _
      (List.mem_cons_of_mem _ (spawn_mem_print_subprocess env _ _))

/-- C6 witness: the amended statement at the sample environment and
instance. -/
theorem C6_reverse_gating_witness :
    (∃ tr, traceroute_instance sampleEnv sampleInstance "proj" "zone" false
        = .ok tr
        ∧ (∀ e ∈ tr, isRemoteExec e = false)
        ∧ ∃ e ∈ tr, isSelfIpDig e = true)
    ∧ ∃ tr, traceroute_instance sampleEnv sampleInstance "proj" "zone" true
        = .ok tr
        ∧ ∃ e ∈ tr, isRemoteExec e = true :=
  C6_reverse_gating sampleEnv sampleInstance "proj" "zone" "203.0.113.5" rfl

/-- C7: in `--print` mode every matched instance whose address resolves
contributes exactly one output line `"<name>: <natIP>"`, and the whole
per-zone processing spawns no diagnostic subprocess at all. -/
theorem C7_print_mode (env : RunnerEnv) (reverseFlag : Bool) (project : String)
    (zi : List (String × List InstanceRec))
    (h : ∀ z l, (z, l) ∈ zi → ∀ x ∈ l, ∃ ip, resolve_external_ip x = .ok ip) :
    (∀ x ip, resolve_external_ip x = .ok ip →
        print_instance x = .ok [Effect.out (x.name ++ ": " ++ ip)])
    ∧ ∃ tr, process_zones env true reverseFlag project zi = .ok tr
        ∧ ∀ e ∈ tr, isSpawn e = false := by
  constructor
  · intro x ip hip
    simp [print_instance, hip, except_bind_ok]
  · exact process_zones_print env reverseFlag project zi h

/-- C7 witness: print mode over the sample grouping produces a spawn-free
trace and the sample instance's single formatted line. -/
theorem C7_print_mode_witness :
    (∀ x ip, resolve_external_ip x = .ok ip →
        print_instance x = .ok [Effect.out (x.name ++ ": " ++ ip)])
    ∧ ∃ tr, process_zones sampleEnv true false "proj"
          [("us-central1-a", [sampleInstance])] = .ok tr
        ∧ ∀ e ∈ tr, isSpawn e = false :=
  C7_print_mode sampleEnv false "proj" [("us-central1-a", [sampleInstance])]
    (by
      intro z l hm x hx
      simp only [List.mem_singleton, Prod.mk.injEq] at hm
      obtain ⟨rfl, rfl⟩ := hm
      simp only [List.mem_singleton] at hx
      subst hx
      exact ⟨"203.0.113.5", rfl⟩)

/-- C10: the diagnostic target address is always the `natIP` of the first
access configuration of the first network interface — the result is the
same for any tails `acs`/`nis`, so other interfaces or access
configurations are never consulted — and both `print_instance` and the
`traceroute` invocation of `traceroute_instance` use exactly that
address. -/
theorem C10_first_config_target (name status kind ip : String)
    (ac : AccessConfig) (acs : List AccessConfig) (nis : List NetworkInterface)
    (h : ac.natIP = some ip) :
    resolve_external_ip ⟨name, status, kind, ⟨ac :: acs⟩ :: nis⟩ = .ok ip
    ∧ print_instance ⟨name, status, kind, ⟨ac :: acs⟩ :: nis⟩
        = .ok [Effect.out (name ++ ": " ++ ip)]
    ∧ ∀ env project zone rev, ∃ tr,
        traceroute_instance env ⟨name, status, kind, ⟨ac :: acs⟩ :: nis⟩
            project zone rev = .ok tr
        ∧ Effect.spawn "Traceroute" ["traceroute", ip] ∈ tr := by
  have hres : resolve_external_ip ⟨name, status, kind, ⟨ac :: acs⟩ :: nis⟩
      = .ok ip := by
    simp [resolve_external_ip, h]
  refine ⟨hres, ?_, ?_⟩
  · simp [print_instance, hres, except_bind_ok]
  · intro env project zone rev
    refine ⟨_, traceroute_instance_eq env _ project zone rev ip hres, ?_⟩
    exact List.mem_append_left _
      (List.mem_append_right _ (spawn_mem_print_subprocess env _ _))

/-- C10 witness: the target-address extraction at a concrete instance. -/
theorem C10_first_config_target_witness :
    resolve_external_ip
        ⟨"web-01", "RUNNING", "compute#instance",
          ⟨[⟨some "203.0.113.5"⟩]⟩ :: []⟩ = .ok "203.0.113.5"
    ∧ print_instance
        ⟨"web-01", "RUNNING", "compute#instance",
          ⟨[⟨some "203.0.113.5"⟩]⟩ :: []⟩
        = .ok [Effect.out ("web-01" ++ ": " ++ "203.0.113.5")]
    ∧ ∀ env project zone rev, ∃ tr,
        traceroute_instance env
            ⟨"web-01", "RUNNING", "compute#instance",
              ⟨[⟨some "203.0.113.5"⟩]⟩ :: []⟩ project zone rev = .ok tr
        ∧ Effect.spawn "Traceroute" ["traceroute", "203.0.113.5"] ∈ tr :=
  C10_first_config_target "web-01" "RUNNING" "compute#instance" "203.0.113.5"
    ⟨some "203.0.113.5"⟩ [] [] rfl

end Tracerouter
